import Mathlib

/-!
Shallow embedding of the registry client in
`src/backend/data/scrapers/clinicaltrials.py` (`ClinicalTrialsScraper`
and the `StudyData` dataclass), together with theorems about its
pagination, failure handling, and JSON-normalization behaviour.

Detail payloads are modelled as nested structures mirroring exactly the
sections and keys the Python code reads; every section and every leaf is
optional, matching the `dict.get`-with-default style of the source.
Network interaction is modelled by passing the sequence of page
responses (for `search_studies`) or the single detail response (for
`get_study_detail`) as an explicit argument: the n-th request of the
pagination loop consumes the n-th element of the scenario list.
-/

namespace ClinicalTrials

/-- `identificationModule` of a detail payload (keys read by the source:
`nctId`, `officialTitle`, `briefTitle`, `acronym`). -/
structure IdentificationModule where
  nctId : Option String := none
  officialTitle : Option String := none
  briefTitle : Option String := none
  acronym : Option String := none
deriving DecidableEq

/-- `startDateStruct` / `completionDateStruct` (key read: `date`). -/
structure DateStruct where
  date : Option String := none
deriving DecidableEq

/-- `statusModule` (keys read: `overallStatus`, `startDateStruct`,
`completionDateStruct`). -/
structure StatusModule where
  overallStatus : Option String := none
  startDateStruct : Option DateStruct := none
  completionDateStruct : Option DateStruct := none
deriving DecidableEq

/-- `enrollmentInfo` (key read: `count`). -/
structure EnrollmentInfo where
  count : Option Int := none
deriving DecidableEq

/-- `designModule` (keys read: `studyType`, `phases`, `enrollmentInfo`). -/
structure DesignModule where
  studyType : Option String := none
  phases : Option (List String) := none
  enrollmentInfo : Option EnrollmentInfo := none
deriving DecidableEq

/-- `descriptionModule` (keys read: `briefSummary`, `detailedDescription`). -/
structure DescriptionModule where
  briefSummary : Option String := none
  detailedDescription : Option String := none
deriving DecidableEq

/-- `conditionsModule` (key read: `conditions`). -/
structure ConditionsModule where
  conditions : Option (List String) := none
deriving DecidableEq

/-- one entry of `armsInterventionsModule.interventions`
(keys read: `type`, `name`, `description`). -/
structure InterventionPayload where
  type : Option String := none
  name : Option String := none
  description : Option String := none
deriving DecidableEq

/-- `armsInterventionsModule` (key read: `interventions`). -/
structure ArmsInterventionsModule where
  interventions : Option (List InterventionPayload) := none
deriving DecidableEq

/-- `leadSponsor` (key read: `name`). -/
structure LeadSponsor where
  name : Option String := none
deriving DecidableEq

/-- `sponsorsCollaboratorsModule` (key read: `leadSponsor`). -/
structure SponsorsModule where
  leadSponsor : Option LeadSponsor := none
deriving DecidableEq

/-- one entry of `outcomesModule.primaryOutcomes` / `secondaryOutcomes`
(key read: `description`). -/
structure OutcomePayload where
  description : Option String := none
deriving DecidableEq

/-- `outcomesModule` (keys read: `primaryOutcomes`, `secondaryOutcomes`). -/
structure OutcomesModule where
  primaryOutcomes : Option (List OutcomePayload) := none
  secondaryOutcomes : Option (List OutcomePayload) := none
deriving DecidableEq

/-- `protocolSection` of a detail payload, with the eight named sections
the source reads. -/
structure ProtocolSection where
  identificationModule : Option IdentificationModule := none
  statusModule : Option StatusModule := none
  designModule : Option DesignModule := none
  descriptionModule : Option DescriptionModule := none
  conditionsModule : Option ConditionsModule := none
  armsInterventionsModule : Option ArmsInterventionsModule := none
  sponsorsCollaboratorsModule : Option SponsorsModule := none
  outcomesModule : Option OutcomesModule := none
deriving DecidableEq

/-- a whole detail payload (key read: `protocolSection`). -/
structure StudyPayload where
  protocolSection : Option ProtocolSection := none
deriving DecidableEq

/-- the `{"name": cond}` dictionaries built for `StudyData.conditions`. -/
structure ConditionEntry where
  name : String
deriving DecidableEq

/-- the `{"type": .., "name": .., "description": ..}` dictionaries built
for `StudyData.interventions`. -/
structure InterventionEntry where
  type : Option String
  name : Option String
  description : Option String
deriving DecidableEq

/-- placeholder for the never-populated `eligibility` dictionary. -/
structure EligibilityInfo where
deriving DecidableEq

/-- placeholder for the never-populated `contacts` entries. -/
structure ContactInfo where
deriving DecidableEq

/-- placeholder for the never-populated `locations` entries. -/
structure LocationInfo where
deriving DecidableEq

/-- placeholder for the never-populated `publications` entries. -/
structure PublicationInfo where
deriving DecidableEq

/-- the `StudyData` dataclass (lines 17-40 of the source).  Python
defaults every optional field to `None`; list-typed fields also default
to `None`, so they are `Option (List _)` here and `some` exactly when
the code passes an actual list. -/
structure StudyData where
  nct_id : String
  official_title : String
  brief_title : Option String := none
  acronym : Option String := none
  study_type : Option String := none
  phase : Option String := none
  status : Option String := none
  start_date : Option String := none
  completion_date : Option String := none
  enrollment : Option Int := none
  sponsor_name : Option String := none
  brief_summary : Option String := none
  detailed_description : Option String := none
  primary_endpoint : Option String := none
  secondary_endpoint : Option String := none
  conditions : Option (List ConditionEntry) := none
  interventions : Option (List InterventionEntry) := none
  eligibility : Option EligibilityInfo := none
  contacts : Option (List ContactInfo) := none
  locations : Option (List LocationInfo) := none
  publications : Option (List PublicationInfo) := none
deriving DecidableEq

/-- `ClinicalTrialsScraper._parse_study_data` (lines 188-275), field by
field.  `dict.get(key, {})` becomes `Option.getD _ {}`; `dict.get(key)`
becomes the optional field itself.  The Python truthiness test
`if sponsors.get("leadSponsor")` treats an empty dictionary as false,
which coincides with the `none` branch here because an empty
`leadSponsor` contributes `name = none` either way. -/
def parse_study_data (data : StudyPayload) : StudyData :=
  let protocol_section := data.protocolSection.getD {}
  let identification := protocol_section.identificationModule.getD {}
  let nct_id := identification.nctId.getD ""
  let official_title := identification.officialTitle.getD ""
  let brief_title := identification.briefTitle
  let acronym := identification.acronym
  let stat := protocol_section.statusModule.getD {}
  let study_status := stat.overallStatus
  let start_date := (stat.startDateStruct.getD {}).date
  let completion_date := (stat.completionDateStruct.getD {}).date
  let design := protocol_section.designModule.getD {}
  let study_type := design.studyType
  let phase := match design.phases.getD [] with
    | [] => none
    | p1 :: _ => some p1
  let description := protocol_section.descriptionModule.getD {}
  let brief_summary := description.briefSummary
  let detailed_description := description.detailedDescription
  let conditions := (protocol_section.conditionsModule.getD {}).conditions.getD []
  let conditions_list := conditions.map (fun cond => ConditionEntry.mk cond)
  let arms_interventions := protocol_section.armsInterventionsModule.getD {}
  let interventions := (arms_interventions.interventions.getD []).map
    (fun i => InterventionEntry.mk i.type i.name i.description)
  let sponsors := protocol_section.sponsorsCollaboratorsModule.getD {}
  let sponsor_name := match sponsors.leadSponsor with
    | some ls => ls.name
    | none => none
  let enrollment_info := (protocol_section.designModule.getD {}).enrollmentInfo.getD {}
  let enrollment := enrollment_info.count
  let outcomes := protocol_section.outcomesModule.getD {}
  let primary_endpoint := match outcomes.primaryOutcomes.getD [] with
    | [] => none
    | o :: _ => o.description
  let secondary_endpoint := match outcomes.secondaryOutcomes.getD [] with
    | [] => none
    | o :: _ => o.description
  { nct_id := nct_id
    official_title := official_title
    brief_title := brief_title
    acronym := acronym
    study_type := study_type
    phase := phase
    status := study_status
    start_date := start_date
    completion_date := completion_date
    enrollment := enrollment
    sponsor_name := sponsor_name
    brief_summary := brief_summary
    detailed_description := detailed_description
    primary_endpoint := primary_endpoint
    secondary_endpoint := secondary_endpoint
    conditions := some conditions_list
    interventions := some interventions }

/-- outcome of the single HTTP request made by `get_study_detail`: an
HTTP response with a status code and (JSON-decoded) body, or an
exception raised anywhere inside the `try` block (network failure,
timeout, undecodable body). -/
inductive DetailResponse where
  | response (status : Nat) (payload : StudyPayload)
  | exception
deriving DecidableEq

/-- `ClinicalTrialsScraper.get_study_detail` (lines 163-186): parse the
body on status 200, otherwise (non-200 status or exception) return
`None`.  The identifier argument only forms the request URL. -/
def get_study_detail (_nct_id : String) (resp : DetailResponse) : Option StudyData :=
  match resp with
  | .response status payload =>
    if status == 200 then some (parse_study_data payload)
    else none
  | .exception => none

/-- a value stored in the request-parameter dictionary: the source puts
strings and the integer `pageSize` there. -/
inductive ParamValue where
  | str (s : String)
  | int (n : Nat)
deriving DecidableEq

/-- Python dictionary assignment `params[key] = v` on an
insertion-ordered association list: replace the existing entry in place,
or append a new one. -/
def setParam : List (String × ParamValue) → String → ParamValue → List (String × ParamValue)
  | [], key, v => [(key, v)]
  | kv :: rest, key, v =>
    if kv.1 = key then (key, v) :: rest
    else kv :: setParam rest key v

/-- dictionary lookup on the association list. -/
def lookupParam : List (String × ParamValue) → String → Option ParamValue
  | [], _ => none
  | kv :: rest, key => if kv.1 = key then some kv.2 else lookupParam rest key

/-- `" OR ".join(xs)`. -/
def joinOr (xs : List String) : String := String.intercalate " OR " xs

/-- Python truthiness of an optional list (`None` and `[]` are false). -/
def truthyList (l : Option (List String)) : Bool :=
  match l with
  | some (_ :: _) => true
  | _ => false

/-- Python truthiness of an optional string (`None` and `""` are false). -/
def truthyStr (s : Option String) : Bool :=
  match s with
  | some v => v != ""
  | none => false

/-- the arguments of `ClinicalTrialsScraper.search_studies`
(lines 70-82), with the source's defaults. -/
structure SearchArgs where
  query : String := ""
  conditions : Option (List String) := none
  interventions : Option (List String) := none
  sponsor : Option String := none
  phase : Option (List String) := none
  status : Option (List String) := none
  study_type : Option (List String) := none
  start_date_from : Option String := none
  start_date_to : Option String := none
  limit : Nat := 1000
deriving DecidableEq

/-- the `params` dictionary built by `search_studies` before its
pagination loop (lines 101-125): the base dictionary followed by one
conditional assignment per truthy filter argument.  Note that the
source never reads `start_date_from` or `start_date_to`. -/
def build_search_params (a : SearchArgs) : List (String × ParamValue) :=
  let params : List (String × ParamValue) :=
    [("query.cond", ParamValue.str a.query),
     ("query.titles", ParamValue.str a.query),
     ("pageSize", ParamValue.int (min a.limit 1000)),
     ("format", ParamValue.str "json")]
  let params := if truthyList a.conditions then
      setParam params "query.cond" (ParamValue.str (joinOr (a.conditions.getD []))) else params
  let params := if truthyList a.interventions then
      setParam params "query.intr" (ParamValue.str (joinOr (a.interventions.getD []))) else params
  let params := if truthyStr a.sponsor then
      setParam params "query.spons" (ParamValue.str (a.sponsor.getD "")) else params
  let params := if truthyList a.phase then
      setParam params "query.phase" (ParamValue.str (joinOr (a.phase.getD []))) else params
  let params := if truthyList a.status then
      setParam params "query.status" (ParamValue.str (joinOr (a.status.getD []))) else params
  let params := if truthyList a.study_type then
      setParam params "query.type" (ParamValue.str (joinOr (a.study_type.getD []))) else params
  params

/-- outcome of one page request of the pagination loop: an HTTP
response carrying a status code, the `nctId` lookup result of each
entry of the body's `studies` list (`none` when the nested lookup finds
no identifier), and the body's optional `nextPageToken`; or an
exception raised inside the loop's `try` block. -/
inductive PageResult where
  | response (status : Nat) (studies : List (Option String))
      (nextPageToken : Option String)
  | exception
deriving DecidableEq

/-- lines 144-147: append each study's `nctId` when it is truthy
(neither missing nor the empty string). -/
def extractIds (studies : List (Option String)) : List String :=
  studies.filterMap (fun s =>
    match s with
    | some nct_id => if nct_id = "" then none else some nct_id
    | none => none)

/-- the `while len(nct_ids) < limit` pagination loop of `search_studies`
(lines 130-159), consuming the scenario's page responses in order:
check the loop condition, make the request, on status 200 accumulate
the page's identifiers and continue while a `nextPageToken` is present,
and on a non-200 status or an exception break out of the loop. -/
def searchLoop (limit : Nat) : List PageResult → List String → List String
  | [], nct_ids => nct_ids
  | page :: rest, nct_ids =>
    if nct_ids.length < limit then
      match page with
      | .response stat studies nextPageToken =>
        if stat == 200 then
          match nextPageToken with
          | some _ => searchLoop limit rest (nct_ids ++ extractIds studies)
          | none => nct_ids ++ extractIds studies
        else nct_ids
      | .exception => nct_ids
    else nct_ids

/-- ghost observer of the same loop: how many page requests are issued
before it stops.  The recursion mirrors `searchLoop` exactly. -/
def searchLoopRequests (limit : Nat) : List PageResult → List String → Nat
  | [], _ => 0
  | page :: rest, nct_ids =>
    if nct_ids.length < limit then
      match page with
      | .response stat studies nextPageToken =>
        if stat == 200 then
          match nextPageToken with
          | some _ => 1 + searchLoopRequests limit rest (nct_ids ++ extractIds studies)
          | none => 1
        else 1
      | .exception => 1
    else 0

/-- `search_studies` (lines 70-161): run the pagination loop starting
from an empty accumulator and return `nct_ids[:limit]`.  The filter
arguments shape the request parameters (`build_search_params`), which
in this model determine the page responses only through the scenario
argument. -/
def search_studies (a : SearchArgs) (pages : List PageResult) : List String :=
  (searchLoop a.limit pages []).take a.limit

/-- `get_studies_by_date_range` (lines 277-298): a literal delegation
to `search_studies` with the date-range arguments bound. -/
def get_studies_by_date_range (start_date end_date : String) (limit : Nat)
    (pages : List PageResult) : List String :=
  search_studies
    { start_date_from := some start_date
      start_date_to := some end_date
      limit := limit } pages

/-- the `params` dictionary of `get_updated_studies` (lines 315-319).
Unlike `build_search_params` it carries the
`query.lastUpdatePostDateStruct` key and no `query.cond`/`query.titles`
keys. -/
def build_updated_params (last_update_date : String) (limit : Nat) :
    List (String × ParamValue) :=
  [("query.lastUpdatePostDateStruct", ParamValue.str last_update_date),
   ("pageSize", ParamValue.int (min limit 1000)),
   ("format", ParamValue.str "json")]

/-- the pagination loop of `get_updated_studies` (lines 324-351): a
line-for-line duplicate of the `search_studies` loop. -/
def updatedLoop (limit : Nat) : List PageResult → List String → List String
  | [], nct_ids => nct_ids
  | page :: rest, nct_ids =>
    if nct_ids.length < limit then
      match page with
      | .response stat studies nextPageToken =>
        if stat == 200 then
          match nextPageToken with
          | some _ => updatedLoop limit rest (nct_ids ++ extractIds studies)
          | none => nct_ids ++ extractIds studies
        else nct_ids
      | .exception => nct_ids
    else nct_ids

/-- `get_updated_studies` (lines 300-353): its own parameter dictionary
and its own copy of the pagination loop, then `nct_ids[:limit]`. -/
def get_updated_studies (_last_update_date : String) (limit : Nat)
    (pages : List PageResult) : List String :=
  (updatedLoop limit pages []).take limit

/-- identifiers the loop would gather from the scenario if no limit cut
it short: follow the pages, stopping at the first non-200 response,
exception, or missing continuation token. -/
def collectAll : List PageResult → List String
  | [] => []
  | page :: rest =>
    match page with
    | .response stat studies nextPageToken =>
      if stat == 200 then
        match nextPageToken with
        | some _ => extractIds studies ++ collectAll rest
        | none => extractIds studies
      else []
    | .exception => []

/-- the (filtered) identifiers contributed by one successful page. -/
def pageIds : PageResult → List String
  | .response stat studies _ => if stat == 200 then extractIds studies else []
  | .exception => []

/-- concatenation of every page's identifiers, in page order. -/
def totalIds (pages : List PageResult) : List String :=
  (pages.map pageIds).flatten

/-- a page that succeeds and supplies a continuation token. -/
def okWithToken : PageResult → Bool
  | .response stat _ tok => stat == 200 && tok.isSome
  | .exception => false

/-- a page request that fails: non-200 status or an exception. -/
def pageFails : PageResult → Bool
  | .response stat _ _ => stat != 200
  | .exception => true

/-- a scenario that is one complete successful token chain: every page
succeeds, every page but the last carries a continuation token, and the
last page carries none. -/
def completeChain : List PageResult → Bool
  | [PageResult.response stat _ none] => stat == 200
  | PageResult.response stat _ (some _) :: rest =>
      stat == 200 && completeChain rest
  | _ => false

/-- truncating the loop's result is the same as truncating the full
token-chain accumulation: the `len(nct_ids) < limit` guard only ever
stops the loop once at least `limit` identifiers are in hand, and the
final `[:limit]` slice hides the difference. -/
theorem searchLoop_take (limit : Nat) (pages : List PageResult) :
    ∀ acc : List String,
      (searchLoop limit pages acc).take limit = (acc ++ collectAll pages).take limit := by
  induction pages with
  | nil => intro acc; simp [searchLoop, collectAll]
  | cons page rest ih =>
    intro acc
    by_cases h : acc.length < limit
    · cases page with
      | response stat studies tok =>
        cases hstat : (stat == 200) with
        | true =>
          cases tok with
          | some t =>
            simp only [searchLoop, collectAll, h, hstat, if_pos, if_true]
            rw [ih, List.append_assoc]
          | none => simp [searchLoop, collectAll, h, hstat]
        | false => simp [searchLoop, collectAll, h, hstat]
      | exception => simp [searchLoop, collectAll, h]
    · simp only [searchLoop, h, if_neg, if_false]
      rw [List.take_append_of_le_length (Nat.le_of_not_lt h)]

/-- a run of successful pages with continuation tokens contributes its
identifiers and lets the chain continue. -/
theorem collectAll_append_of_ok (l : List PageResult) :
    ∀ pre : List PageResult, (∀ p ∈ pre, okWithToken p = true) →
      collectAll (pre ++ l) = totalIds pre ++ collectAll l := by
  intro pre
  induction pre with
  | nil => intro _; simp [totalIds]
  | cons p rest ih =>
    intro h
    have hp := h p (List.mem_cons_self p rest)
    cases p with
    | response stat studies tok =>
      have hs : (stat == 200) = true ∧ tok.isSome = true := by
        simpa [okWithToken, Bool.and_eq_true] using hp
      cases tok with
      | none => simp [Option.isSome] at hs
      | some t =>
        have hrest := ih (fun q hq => h q (List.mem_cons_of_mem _ hq))
        simp [collectAll, totalIds, pageIds, hs.1, hrest, List.append_assoc]
    | exception => simp [okWithToken] at hp

/-- on a complete successful token chain the full accumulation is the
concatenation of every page's identifiers. -/
theorem collectAll_of_completeChain :
    ∀ pages : List PageResult, completeChain pages = true →
      collectAll pages = totalIds pages := by
  intro pages
  induction pages with
  | nil => intro h; simp [completeChain] at h
  | cons p rest ih =>
    intro h
    cases p with
    | response stat studies tok =>
      cases tok with
      | none =>
        cases rest with
        | nil =>
          have hs : (stat == 200) = true := by simpa [completeChain] using h
          simp [collectAll, totalIds, pageIds, hs]
        | cons q qs => simp [completeChain] at h
      | some t =>
        have hs : (stat == 200) = true ∧ completeChain rest = true := by
          simpa [completeChain, Bool.and_eq_true] using h
        simp [collectAll, totalIds, pageIds, hs.1, ih hs.2]
    | exception => simp [completeChain] at h

/-- Claim C1: for every scenario of page responses and every limit,
`search_studies` returns at most `limit` identifiers; it equals the
exact `limit`-truncation of the identifiers accumulated page by page,
in registry order, along the continuation-token chain (stopping where
no token is returned); and on a complete successful chain whose total
identifier count is below `limit` it returns exactly all identifiers in
page-then-within-page order. -/
theorem search_studies_pagination (a : SearchArgs) (pages : List PageResult) :
    (search_studies a pages).length ≤ a.limit ∧
    search_studies a pages = (collectAll pages).take a.limit ∧
    (completeChain pages = true → (totalIds pages).length < a.limit →
      search_studies a pages = totalIds pages) := by
  have hmain : search_studies a pages = (collectAll pages).take a.limit := by
    unfold search_studies
    rw [searchLoop_take]
    simp
  refine ⟨?_, hmain, ?_⟩
  · rw [hmain, List.length_take]
    exact Nat.min_le_left a.limit (collectAll pages).length
  · intro hc hlen
    rw [hmain, collectAll_of_completeChain pages hc]
    exact List.take_of_length_le (Nat.le_of_lt hlen)

/-- concrete two-page scenario: page 1 succeeds with a token, page 2
succeeds without one. -/
def c1pages : List PageResult :=
  [PageResult.response 200 [some "NCT00000001", some "NCT00000002", some "NCT00000003"]
     (some "tokenA"),
   PageResult.response 200 [some "NCT00000004", some "NCT00000005"] none]

/-- witness for `search_studies_pagination` at the concrete two-page
scenario with `limit = 2000`. -/
theorem search_studies_pagination_witness :
    completeChain c1pages = true ∧ (totalIds c1pages).length < 2000 ∧
    search_studies { limit := 2000 } c1pages = totalIds c1pages :=
  ⟨by decide, by decide,
    (search_studies_pagination { limit := 2000 } c1pages).2.2 (by decide) (by decide)⟩

/-- when the loop reaches a failing page it has issued exactly one
request per page consumed so far, and the failing request is the last:
no retry and no further page request happens. -/
theorem searchLoopRequests_of_failure (limit : Nat) (f : PageResult)
    (hf : pageFails f = true) (rest : List PageResult) :
    ∀ (pre : List PageResult) (acc : List String),
      (∀ p ∈ pre, okWithToken p = true) →
      (acc ++ totalIds pre).length < limit →
      searchLoopRequests limit (pre ++ f :: rest) acc = pre.length + 1 := by
  intro pre
  induction pre with
  | nil =>
    intro acc _ hlen
    simp [totalIds] at hlen
    cases f with
    | response stat studies tok =>
      have hs : (stat == 200) = false := by
        simpa [pageFails, bne] using hf
      simp [searchLoopRequests, hlen, hs]
    | exception => simp [searchLoopRequests, hlen]
  | cons p rest' ih =>
    intro acc hok hlen
    have hp := hok p (List.mem_cons_self p rest')
    cases p with
    | response stat studies tok =>
      have hs : (stat == 200) = true ∧ tok.isSome = true := by
        simpa [okWithToken, Bool.and_eq_true] using hp
      cases tok with
      | none => simp [Option.isSome] at hs
      | some t =>
        have hlt : acc.length < limit := by
          have := hlen
          simp [List.length_append] at this ⊢
          omega
        have hlen' : ((acc ++ extractIds studies) ++ totalIds rest').length < limit := by
          have : pageIds (PageResult.response stat studies (some t)) = extractIds studies := by
            simp [pageIds, hs.1]
          simp [totalIds, List.length_append] at hlen ⊢
          simp [pageIds, hs.1] at hlen
          omega
        have := ih (acc ++ extractIds studies)
          (fun q hq => hok q (List.mem_cons_of_mem _ hq)) hlen'
        simp [searchLoopRequests, hlt, hs.1, this]
        omega
    | exception => simp [okWithToken] at hp

/-- Claim C2: when every page before page K succeeds with a
continuation token and fewer than `limit` identifiers have accumulated,
a failing page K (non-200 status or exception) makes `search_studies`
return exactly the concatenation of the identifiers of pages 1..K-1 —
no exception escapes (the function is total and returns that list) —
and exactly K requests are issued: the failing request is never
retried and no page after K is requested. -/
theorem search_studies_stops_on_failure (a : SearchArgs)
    (pre rest : List PageResult) (f : PageResult)
    (hok : ∀ p ∈ pre, okWithToken p = true)
    (hf : pageFails f = true)
    (hlen : (totalIds pre).length < a.limit) :
    search_studies a (pre ++ f :: rest) = totalIds pre ∧
    searchLoopRequests a.limit (pre ++ f :: rest) [] = pre.length + 1 := by
  constructor
  · have h1 : search_studies a (pre ++ f :: rest)
        = (collectAll (pre ++ f :: rest)).take a.limit := by
      unfold search_studies
      rw [searchLoop_take]
      simp
    have h2 : collectAll (f :: rest) = [] := by
      cases f with
      | response stat studies tok =>
        have hs : (stat == 200) = false := by
          simpa [pageFails, bne] using hf
        simp [collectAll, hs]
      | exception => simp [collectAll]
    rw [h1, collectAll_append_of_ok _ pre hok, h2, List.append_nil]
    exact List.take_of_length_le (Nat.le_of_lt hlen)
  · exact searchLoopRequests_of_failure a.limit f hf rest pre [] hok (by simpa using hlen)

/-- concrete successful first page for the C2 witness. -/
def c2pre : List PageResult :=
  [PageResult.response 200 [some "NCT00000001"] (some "tokenA")]

/-- witness for `search_studies_stops_on_failure`: one successful page,
then a 500 response, then one page that is never requested. -/
theorem search_studies_stops_on_failure_witness :
    search_studies { limit := 10 }
        (c2pre ++ PageResult.response 500 [some "NCT00000009"] none
          :: [PageResult.response 200 [some "NCT00000010"] none]) = totalIds c2pre ∧
    searchLoopRequests 10
        (c2pre ++ PageResult.response 500 [some "NCT00000009"] none
          :: [PageResult.response 200 [some "NCT00000010"] none]) [] = c2pre.length + 1 :=
  search_studies_stops_on_failure { limit := 10 } c2pre
    [PageResult.response 200 [some "NCT00000010"] none]
    (PageResult.response 500 [some "NCT00000009"] none)
    (by decide) (by decide) (by decide)

/-- Claim C3: `get_study_detail` returns the parsed record exactly on a
status-200 response, and `None` — never a raised exception — on any
non-200 status and on any exception during the fetch or the parse. -/
theorem get_study_detail_cases (nct_id : String) :
    (∀ payload, get_study_detail nct_id (DetailResponse.response 200 payload)
        = some (parse_study_data payload)) ∧
    (∀ stat payload, stat ≠ 200 →
        get_study_detail nct_id (DetailResponse.response stat payload) = none) ∧
    get_study_detail nct_id DetailResponse.exception = none := by
  refine ⟨fun payload => rfl, fun stat payload h => ?_, rfl⟩
  simp [get_study_detail, h]

/-- witness for `get_study_detail_cases` at a concrete 404 response. -/
theorem get_study_detail_cases_witness :
    get_study_detail "NCT00000001" (DetailResponse.response 404 {}) = none :=
  (get_study_detail_cases "NCT00000001").2.1 404 {} (by decide)

/-- Claim C10: every record `get_study_detail` returns has its
`eligibility`, `contacts`, `locations`, and `publications` fields
absent: `_parse_study_data` constructs the record without them, for
every payload. -/
theorem get_study_detail_unpopulated_fields (nct_id : String)
    (resp : DetailResponse) (r : StudyData)
    (h : get_study_detail nct_id resp = some r) :
    r.eligibility = none ∧ r.contacts = none ∧ r.locations = none ∧
      r.publications = none := by
  cases resp with
  | response stat payload =>
    simp only [get_study_detail] at h
    split at h
    · obtain rfl := (Option.some.injEq _ _).mp h
      exact ⟨rfl, rfl, rfl, rfl⟩
    · exact absurd h (by simp)
  | exception => exact absurd h (by simp [get_study_detail])

/-- witness for `get_study_detail_unpopulated_fields` at the empty
payload. -/
theorem get_study_detail_unpopulated_fields_witness :
    (parse_study_data {}).eligibility = none ∧
      (parse_study_data {}).contacts = none ∧
      (parse_study_data {}).locations = none ∧
      (parse_study_data {}).publications = none :=
  get_study_detail_unpopulated_fields "NCT00000002"
    (DetailResponse.response 200 {}) (parse_study_data {}) rfl

/-- Claim C6: the normalization transform is total and its lookups are
tolerant: a payload missing `protocolSection`, or missing any of the
eight named sections, parses to exactly the same record as one whose
corresponding section is present but empty; likewise for the nested
`startDateStruct`, `completionDateStruct`, `enrollmentInfo`, and
`leadSponsor` keys; and the fully empty payload parses to the fully
defaulted record (empty strings for the required identifier/title,
empty lists for the collections, absent everything else). -/
theorem parse_tolerant_sections :
    parse_study_data {} = parse_study_data { protocolSection := some {} } ∧
    (∀ sec : ProtocolSection,
      parse_study_data { protocolSection := some { sec with identificationModule := none } }
        = parse_study_data { protocolSection := some { sec with identificationModule := some {} } }) ∧
    (∀ sec : ProtocolSection,
      parse_study_data { protocolSection := some { sec with statusModule := none } }
        = parse_study_data { protocolSection := some { sec with statusModule := some {} } }) ∧
    (∀ sec : ProtocolSection,
      parse_study_data { protocolSection := some { sec with designModule := none } }
        = parse_study_data { protocolSection := some { sec with designModule := some {} } }) ∧
    (∀ sec : ProtocolSection,
      parse_study_data { protocolSection := some { sec with descriptionModule := none } }
        = parse_study_data { protocolSection := some { sec with descriptionModule := some {} } }) ∧
    (∀ sec : ProtocolSection,
      parse_study_data { protocolSection := some { sec with conditionsModule := none } }
        = parse_study_data { protocolSection := some { sec with conditionsModule := some {} } }) ∧
    (∀ sec : ProtocolSection,
      parse_study_data { protocolSection := some { sec with armsInterventionsModule := none } }
        = parse_study_data { protocolSection := some { sec with armsInterventionsModule := some {} } }) ∧
    (∀ sec : ProtocolSection,
      parse_study_data { protocolSection := some { sec with sponsorsCollaboratorsModule := none } }
        = parse_study_data { protocolSection := some { sec with sponsorsCollaboratorsModule := some {} } }) ∧
    (∀ sec : ProtocolSection,
      parse_study_data { protocolSection := some { sec with outcomesModule := none } }
        = parse_study_data { protocolSection := some { sec with outcomesModule := some {} } }) ∧
    (∀ (sec : ProtocolSection) (st : StatusModule),
      parse_study_data { protocolSection := some { sec with statusModule := some { st with startDateStruct := none } } }
        = parse_study_data { protocolSection := some { sec with statusModule := some { st with startDateStruct := some {} } } }) ∧
    (∀ (sec : ProtocolSection) (st : StatusModule),
      parse_study_data { protocolSection := some { sec with statusModule := some { st with completionDateStruct := none } } }
        = parse_study_data { protocolSection := some { sec with statusModule := some { st with completionDateStruct := some {} } } }) ∧
    (∀ (sec : ProtocolSection) (d : DesignModule),
      parse_study_data { protocolSection := some { sec with designModule := some { d with enrollmentInfo := none } } }
        = parse_study_data { protocolSection := some { sec with designModule := some { d with enrollmentInfo := some {} } } }) ∧
    (∀ (sec : ProtocolSection) (sp : SponsorsModule),
      parse_study_data { protocolSection := some { sec with sponsorsCollaboratorsModule := some { sp with leadSponsor := none } } }
        = parse_study_data { protocolSection := some { sec with sponsorsCollaboratorsModule := some { sp with leadSponsor := some {} } } }) ∧
    parse_study_data {}
      = { nct_id := "", official_title := "",
          conditions := some [], interventions := some [] } :=
  ⟨rfl, fun _ => rfl, fun _ => rfl, fun _ => rfl, fun _ => rfl, fun _ => rfl,
    fun _ => rfl, fun _ => rfl, fun _ => rfl, fun _ _ => rfl, fun _ _ => rfl,
    fun _ _ => rfl, fun _ _ => rfl, rfl⟩

/-- the `protocolSection` of a payload, defaulted when missing (the
source's `data.get("protocolSection", {})`). -/
def protocolOf (p : StudyPayload) : ProtocolSection :=
  p.protocolSection.getD {}

/-- the payload's `nctId` under the tolerant section lookups. -/
def nctIdOf (p : StudyPayload) : Option String :=
  ((protocolOf p).identificationModule.getD {}).nctId

/-- the payload's `phases` list (missing section or key gives `[]`). -/
def phasesOf (p : StudyPayload) : List String :=
  ((protocolOf p).designModule.getD {}).phases.getD []

/-- the payload's `conditions` list. -/
def conditionsOf (p : StudyPayload) : List String :=
  ((protocolOf p).conditionsModule.getD {}).conditions.getD []

/-- the payload's `interventions` list. -/
def interventionsOf (p : StudyPayload) : List InterventionPayload :=
  ((protocolOf p).armsInterventionsModule.getD {}).interventions.getD []

/-- the payload's `leadSponsor` entry. -/
def leadSponsorOf (p : StudyPayload) : Option LeadSponsor :=
  ((protocolOf p).sponsorsCollaboratorsModule.getD {}).leadSponsor

/-- the payload's `primaryOutcomes` list. -/
def primaryOutcomesOf (p : StudyPayload) : List OutcomePayload :=
  ((protocolOf p).outcomesModule.getD {}).primaryOutcomes.getD []

/-- the payload's `secondaryOutcomes` list. -/
def secondaryOutcomesOf (p : StudyPayload) : List OutcomePayload :=
  ((protocolOf p).outcomesModule.getD {}).secondaryOutcomes.getD []

/-- the payload's `enrollmentInfo.count`. -/
def enrollmentCountOf (p : StudyPayload) : Option Int :=
  (((protocolOf p).designModule.getD {}).enrollmentInfo.getD {}).count

/-- Claim C7: the normalization transform realizes the reference field
mapping — `phase` is the head of the phases list, the endpoint fields
are the description of the first primary/secondary outcome (later
entries dropped), conditions map verbatim and in order to single-key
name descriptors, interventions map verbatim and in order to
type/name/description descriptors, and the sponsor is the lead
sponsor's name only. -/
theorem parse_field_mapping (p : StudyPayload) :
    (parse_study_data p).phase = (phasesOf p).head? ∧
    (parse_study_data p).primary_endpoint
      = ((primaryOutcomesOf p).head?.bind fun o => o.description) ∧
    (parse_study_data p).secondary_endpoint
      = ((secondaryOutcomesOf p).head?.bind fun o => o.description) ∧
    (parse_study_data p).conditions
      = some ((conditionsOf p).map fun cond => { name := cond }) ∧
    (parse_study_data p).interventions
      = some ((interventionsOf p).map fun i =>
          { type := i.type, name := i.name, description := i.description }) ∧
    (parse_study_data p).sponsor_name
      = ((leadSponsorOf p).bind fun ls => ls.name) := by
  refine ⟨?_, ?_, ?_, rfl, rfl, ?_⟩
  · show (match phasesOf p with
      | [] => none
      | p1 :: _ => some p1) = (phasesOf p).head?
    cases phasesOf p <;> rfl
  · show (match primaryOutcomesOf p with
      | [] => none
      | o :: _ => o.description)
        = ((primaryOutcomesOf p).head?.bind fun o => o.description)
    cases primaryOutcomesOf p <;> rfl
  · show (match secondaryOutcomesOf p with
      | [] => none
      | o :: _ => o.description)
        = ((secondaryOutcomesOf p).head?.bind fun o => o.description)
    cases secondaryOutcomesOf p <;> rfl
  · show (match leadSponsorOf p with
      | some ls => ls.name
      | none => none) = ((leadSponsorOf p).bind fun ls => ls.name)
    cases leadSponsorOf p <;> rfl

/-- payload with no identifier anywhere and a negative enrollment
count. -/
def c4payload : StudyPayload :=
  { protocolSection := some
      { designModule := some
          { enrollmentInfo := some { count := some (-1) } } } }

/-- Claim C4 counterexample: on a payload with no identifier,
`get_study_detail` returns a record (not an absent result) whose
identifier is the empty placeholder `""`, and the unvalidated
`enrollmentInfo.count` is copied through even when negative. -/
theorem parse_wellformedness_counterexample :
    (get_study_detail "NCT00000000" (DetailResponse.response 200 c4payload)).map
        (fun r => (r.nct_id, r.enrollment))
      = some ("", some (-1)) := rfl

/-- Claim C4 amended: every parsed record keeps its `conditions` and
`interventions` collections present as (possibly empty) sequences, its
identifier is the payload's `nctId` defaulted to the empty string (so a
payload without an identifier yields a record with an empty identifier,
not an absent result), and `enrollment` is the payload's
`enrollmentInfo.count` copied verbatim — absent when missing, but
otherwise any integer, unvalidated. -/
theorem parse_record_shape (p : StudyPayload) :
    (parse_study_data p).nct_id = (nctIdOf p).getD "" ∧
    (parse_study_data p).conditions
      = some ((conditionsOf p).map fun cond => { name := cond }) ∧
    (parse_study_data p).interventions
      = some ((interventionsOf p).map fun i =>
          { type := i.type, name := i.name, description := i.description }) ∧
    (parse_study_data p).enrollment = enrollmentCountOf p :=
  ⟨rfl, rfl, rfl, rfl⟩

/-- concrete `search_studies` arguments supplying a start-date range. -/
def c5args : SearchArgs :=
  { query := "lung cancer"
    start_date_from := some "2024-01-01"
    start_date_to := some "2024-06-30"
    limit := 10 }

/-- Claim C5: the request parameters built by `search_studies` never
reflect the supplied start-date range: at a concrete input with both
date bounds supplied the parameter dictionary carries no date key at
all, and in general the dictionary is invariant under changing
`start_date_from` / `start_date_to`. -/
theorem build_search_params_ignores_dates :
    build_search_params c5args =
      [("query.cond", ParamValue.str "lung cancer"),
       ("query.titles", ParamValue.str "lung cancer"),
       ("pageSize", ParamValue.int 10),
       ("format", ParamValue.str "json")] ∧
    (∀ (a : SearchArgs) (d1 d2 : Option String),
      build_search_params { a with start_date_from := d1, start_date_to := d2 }
        = build_search_params a) :=
  ⟨rfl, fun _ _ _ => rfl⟩

/-- dictionary assignment of a different key leaves a lookup
unchanged. -/
theorem lookupParam_setParam_ne (ps : List (String × ParamValue)) (k k' : String)
    (v : ParamValue) (h : k ≠ k') :
    lookupParam (setParam ps k' v) k = lookupParam ps k := by
  induction ps with
  | nil => simp [setParam, lookupParam, Ne.symm h]
  | cons kv rest ih =>
    by_cases hk : kv.1 = k'
    · simp [setParam, lookupParam, hk, Ne.symm h]
    · simp [setParam, lookupParam, hk, ih]

/-- a conditional dictionary assignment of a different key leaves a
lookup unchanged. -/
theorem lookupParam_ite_setParam (b : Prop) [Decidable b]
    (ps : List (String × ParamValue)) (k k' : String) (v : ParamValue)
    (h : k ≠ k') :
    lookupParam (if b then setParam ps k' v else ps) k = lookupParam ps k := by
  split
  · exact lookupParam_setParam_ne ps k k' v h
  · rfl

/-- no `search_studies` invocation ever issues the
`query.lastUpdatePostDateStruct` parameter. -/
theorem build_search_params_no_lastUpdate_key (a : SearchArgs) :
    lookupParam (build_search_params a) "query.lastUpdatePostDateStruct" = none := by
  simp only [build_search_params]
  rw [lookupParam_ite_setParam _ _ _ _ _ (by decide),
    lookupParam_ite_setParam _ _ _ _ _ (by decide),
    lookupParam_ite_setParam _ _ _ _ _ (by decide),
    lookupParam_ite_setParam _ _ _ _ _ (by decide),
    lookupParam_ite_setParam _ _ _ _ _ (by decide),
    lookupParam_ite_setParam _ _ _ _ _ (by decide)]
  simp [lookupParam]

/-- Claim C8 counterexample: at the concrete input
`last_update_date = "2024-01-01"`, `limit = 10`, no choice of
`search_studies` arguments reproduces `get_updated_studies`: its
request parameters carry the `query.lastUpdatePostDateStruct` key,
which no `search_studies` parameter dictionary contains, so
`get_updated_studies` is not `search_studies` with a filter bound. -/
theorem updated_studies_not_a_wrapper :
    ¬ ∃ a : SearchArgs,
        build_search_params a = build_updated_params "2024-01-01" 10 ∧
        ∀ pages, search_studies a pages = get_updated_studies "2024-01-01" 10 pages := by
  rintro ⟨a, hp, _⟩
  have h1 := build_search_params_no_lastUpdate_key a
  rw [hp] at h1
  simp [build_updated_params, lookupParam] at h1

/-- the duplicated pagination loop of `get_updated_studies` computes
exactly what the `search_studies` loop computes. -/
theorem updatedLoop_eq_searchLoop (limit : Nat) :
    ∀ (pages : List PageResult) (acc : List String),
      updatedLoop limit pages acc = searchLoop limit pages acc := by
  intro pages
  induction pages with
  | nil => intro _; rfl
  | cons page rest ih =>
    intro acc
    by_cases h : acc.length < limit
    · cases page with
      | response stat studies tok =>
        cases hstat : (stat == 200) with
        | true =>
          cases tok with
          | some t => simp [updatedLoop, searchLoop, h, hstat, ih]
          | none => simp [updatedLoop, searchLoop, h, hstat]
        | false => simp [updatedLoop, searchLoop, h, hstat]
      | exception => simp [updatedLoop, searchLoop, h]
    · simp [updatedLoop, searchLoop, h]

/-- Claim C8 amended: `get_studies_by_date_range` is a literal
delegation to `search_studies` with the date-range arguments bound,
forwarding `limit`; `get_updated_studies` does not delegate — it builds
its own parameter dictionary around `query.lastUpdatePostDateStruct`,
which no `search_studies` call produces — but it duplicates the
pagination/limit/failure loop verbatim, so on the same page responses
it returns exactly what `search_studies` with the same `limit`
returns. -/
theorem convenience_operations (start_date end_date last_update : String)
    (limit : Nat) (pages : List PageResult) :
    get_studies_by_date_range start_date end_date limit pages
      = search_studies
          { start_date_from := some start_date
            start_date_to := some end_date
            limit := limit } pages ∧
    get_updated_studies last_update limit pages
      = search_studies { limit := limit } pages ∧
    lookupParam (build_updated_params last_update limit)
        "query.lastUpdatePostDateStruct" = some (ParamValue.str last_update) := by
  refine ⟨rfl, ?_, rfl⟩
  unfold get_updated_studies search_studies
  rw [updatedLoop_eq_searchLoop]

end ClinicalTrials
